import Mathlib

/-!
Verification development for a chat-bot front-end to a document-management
backend (source: `paperless_bot`).  The Python source is shallowly embedded:
pure fragments become Lean functions, stateful handlers become explicit
state-passing functions, the asynchronous polling loop becomes a function
over an oracle of poll outcomes, and the messaging side effects of a handler
become an explicit trace of actions.  Dictionaries are embedded as
association lists, Python `None` as `Option`, and Python truthiness is made
explicit where the source relies on it.
-/

namespace PaperlessBot

/-! ## Data model (from `api/client.py`) -/

/-- `Document` dataclass from `api/client.py`.  Strings stay `String`;
optional fields are `Option`. -/
structure Document where
  id : Nat
  title : String
  correspondent : Option String
  document_type : Option String
  tags : List String
  created : String
  added : String
  content : Option String
deriving Repr, DecidableEq

/-- `TaskResult` dataclass from `api/client.py`: status is one of
"success", "duplicate", "failed", "timeout".  The result message is kept
as a list of characters to ease reasoning about scanning. -/
structure TaskResult where
  status : String
  doc_id : Option Nat := none
  message : Option (List Char) := none
deriving Repr, DecidableEq

/-- Raw tag record as returned by the backend list endpoint (the client
reads fields `id`, `name` and `is_inbox_tag` of each element). -/
structure RawTag where
  id : Nat
  name : String
  is_inbox_tag : Bool
deriving Repr, DecidableEq

/-- Raw backend document record as consumed by `_parse_document`:
`data.get` on absent keys yields `None`, embedded as `Option`. -/
structure RawDocument where
  id : Nat
  title : Option String
  correspondent : Option Nat
  document_type : Option Nat
  tags : List Nat
  created : Option String
  added : Option String
  content : Option String
deriving Repr, DecidableEq

/-- An id-to-name cache (`dict[int, str]` in the source) embedded as an
association list keyed by id. -/
abbrev Cache : Type := List (Nat × String)

/-- `dict.get(k)`: the first binding for `k`, if any. -/
def cacheGet (c : Cache) (k : Nat) : Option String :=
  (List.find? (fun p => p.1 == k) c).map (fun p => p.2)

/-- `dict.get(k, default)`. -/
def cacheGetD (c : Cache) (k : Nat) (d : String) : String :=
  (cacheGet c k).getD d

/-- Python truthiness of an optional integer: `None` and `0` are falsy. -/
def natTruthy : Option Nat → Bool
  | none => false
  | some n => n != 0

/-- Python truthiness of an optional string: `None` and `""` are falsy. -/
def strTruthy : Option String → Bool
  | none => false
  | some s => !s.isEmpty

/-! ## `_parse_document` (client.py lines 351-379) -/

/-- `PaperlessClient._parse_document`: resolves a raw backend document
against the three name caches.  Mirrors the source line by line:
correspondent and document-type ids are resolved with `dict.get` guarded by
truthiness (an unknown id yields `None`), every tag id is resolved with
`dict.get(tid, "#" + str(tid))`, content is truncated to 200 characters
with an ellipsis and emptied content becomes `None`. -/
def parse_document (tagsCache corrCache dtCache : Cache) (d : RawDocument) : Document :=
  let correspondent :=
    if natTruthy d.correspondent then cacheGet corrCache (d.correspondent.getD 0) else none
  let document_type :=
    if natTruthy d.document_type then cacheGet dtCache (d.document_type.getD 0) else none
  let tags := d.tags.map (fun tid => cacheGetD tagsCache tid ("#" ++ toString tid))
  let content0 := d.content.getD ""
  let content1 :=
    if !content0.isEmpty && content0.length > 200
    then (String.mk (content0.toList.take 200)) ++ "..."
    else content0
  { id := d.id
    title := d.title.getD "Untitled"
    correspondent := correspondent
    document_type := document_type
    tags := tags
    created := String.mk ((d.created.getD "").toList.take 10)
    added := String.mk ((d.added.getD "").toList.take 10)
    content := if content1.isEmpty then none else some content1 }

/-! ## Duplicate-id extraction (`_extract_duplicate_id`, client.py 221-231)

The source applies the regular expression `#(\d+)` with `re.search`: the
leftmost occurrence of a hash sign immediately followed by at least one
digit, the capture being the maximal digit run after that hash. -/

/-- Numeric value of a digit run (what Python `int` does to the capture). -/
def digitsToNat (cs : List Char) : Nat :=
  cs.foldl (fun a c => a * 10 + (c.toNat - 48)) 0

/-- `re.search` of `#(\d+)` over the message, embedded as a left-to-right
scan: at the first hash sign followed by a digit, return the value of the
maximal digit run; otherwise keep scanning. -/
def extractDuplicateId : List Char → Option Nat
  | [] => none
  | c :: rest =>
    if c == '#' && (rest.headD ' ').isDigit
    then some (digitsToNat (rest.takeWhile Char.isDigit))
    else extractDuplicateId rest

/-- Spec-side predicate: the message contains an occurrence of the pattern
hash-sign-followed-by-a-digit. -/
def hasHashDigit : List Char → Bool
  | [] => false
  | c :: rest => (c == '#' && (rest.headD ' ').isDigit) || hasHashDigit rest

/-- `p` occurs at the start of `s`. -/
def matchesAt : List Char → List Char → Bool
  | [], _ => true
  | _ :: _, [] => false
  | p :: ps, c :: cs => p == c && matchesAt ps cs

/-- Substring containment (`pat in s` for Python strings). -/
def containsSub (pat : List Char) : List Char → Bool
  | [] => matchesAt pat []
  | c :: rest => matchesAt pat (c :: rest) || containsSub pat rest

/-- Character lowering of a message (`str.lower`, ASCII fragment). -/
def lowerChars (cs : List Char) : List Char :=
  cs.map Char.toLower

/-- The literal substring the failure branch looks for. -/
def duplicateMarker : List Char := "duplicate".toList

/-! ## `wait_for_task` (client.py lines 185-219) -/

/-- One iteration of the polling loop, seen from outside: the backend call
raised a transport error, returned no task, or returned a task record with
a status, an optional result message, and an optional related document. -/
inductive PollOutcome where
  | transportError
  | noTasks
  | task (status : String) (result : Option (List Char)) (related : Option Nat)
deriving Repr, DecidableEq

/-- The terminal-failure handling inside `wait_for_task` (lines 204-214):
if the lowered result message contains "duplicate", the task result is a
duplicate carrying the extracted existing-document id; otherwise a plain
failure carrying the raw message. -/
def handleTerminalFailure (msg : List Char) : TaskResult :=
  if containsSub duplicateMarker (lowerChars msg)
  then { status := "duplicate", doc_id := extractDuplicateId msg, message := some msg }
  else { status := "failed", doc_id := none, message := some msg }

/-- One polling attempt of `wait_for_task`: `some r` means the loop returns
`r`; `none` means the loop continues (transport error, empty task list, or
a non-terminal status).  `str(task.get("result") or "")` is the `getD []`. -/
def pollStep : PollOutcome → Option TaskResult
  | .transportError => none
  | .noTasks => none
  | .task status result _related =>
    if status == "SUCCESS"
    then some { status := "success", doc_id := _related, message := none }
    else if status == "FAILURE" || status == "REVOKED"
    then some (handleTerminalFailure (result.getD []))
    else none

/-- Run the polling loop over a fixed, finite list of attempt outcomes;
exhausting the list yields the timeout result. -/
def runPolls : List PollOutcome → TaskResult
  | [] => { status := "timeout", doc_id := none, message := none }
  | p :: ps =>
    match pollStep p with
    | some r => r
    | none => runPolls ps

/-- `wait_for_task(task_id, timeout)`: `for _ in range(timeout // 2)` polls
the oracle once per iteration; the real-time pacing (`asyncio.sleep(2)`) is
abstracted away, the attempt budget `timeout / 2` is kept exactly. -/
def wait_for_task (polls : Nat → PollOutcome) (timeout : Nat) : TaskResult :=
  runPolls ((List.range (timeout / 2)).map polls)

/-- Number of polling attempts actually performed before the loop stops
(each list element inspected counts as one attempt). -/
def attemptsUsed : List PollOutcome → Nat
  | [] => 0
  | p :: ps =>
    match pollStep p with
    | some _ => 1
    | none => 1 + attemptsUsed ps

/-! ## `refresh_cache` (client.py lines 80-119) -/

/-- Lowercase comparison used by the inbox-name override
(`t["name"].lower() == override.lower()`, ASCII fragment of `str.lower`). -/
def strLower (s : String) : String :=
  String.mk (s.toList.map Char.toLower)

/-- Inbox-tag resolution at the end of `refresh_cache` (lines 94-111).
`self._inbox_tag_id = None` first; then, if the name override is truthy,
the first fetched tag whose lowered name equals the lowered override wins;
otherwise the first fetched tag whose `is_inbox_tag` flag is set wins. -/
def resolveInboxTag (override : Option String) (rawTags : List RawTag) : Option Nat :=
  if strTruthy override then
    (rawTags.find? (fun t => strLower t.name == strLower (override.getD ""))).map (fun t => t.id)
  else
    (rawTags.find? (fun t => t.is_inbox_tag)).map (fun t => t.id)

/-- The mutable cache state of a `PaperlessClient` instance. -/
structure CacheState where
  tags_cache : Cache
  correspondents_cache : Cache
  doc_types_cache : Cache
  inbox_tag_id : Option Nat
deriving DecidableEq

/-- Cache comprehension over raw tag data
(the source expression for `self._tags_cache`). -/
def buildTagCache (rawTags : List RawTag) : Cache :=
  rawTags.map (fun t => (t.id, t.name))

/-- The client states observable at each suspension point of `refresh_cache`
and at its end, given the data the three fetches will return.  The body
awaits `get_correspondents()` after installing the tag cache and awaits
`get_document_types()` after installing the correspondent cache, so the
observable states are: tag cache replaced (rest old), tag and correspondent
caches replaced (types old), and the final fully refreshed state. -/
def refreshObservableStates (s0 : CacheState) (rawTags : List RawTag)
    (corrs dts : Cache) (override : Option String) : List CacheState :=
  let s1 := { s0 with tags_cache := buildTagCache rawTags }
  let s2 := { s1 with correspondents_cache := corrs }
  let s3 := { s2 with
    doc_types_cache := dts
    inbox_tag_id := resolveInboxTag override rawTags }
  [s1, s2, s3]

/-- The state `refresh_cache` leaves behind. -/
def refresh_cache (s0 : CacheState) (rawTags : List RawTag)
    (corrs dts : Cache) (override : Option String) : CacheState :=
  (refreshObservableStates s0 rawTags corrs dts override).getLastD s0

/-! ## Authorization gate (`handlers.py` lines 78-89, 391-399)

A handler's messaging-side behaviour is embedded as a trace of actions.
Backend-client invocations appear as `Action.backend`. -/

/-- One observable action of a handler. -/
inductive Action where
  | reply (text : String)
  | answerCallback
  | editMessage (text : String)
  | backend (call : String)
deriving Repr, DecidableEq

/-- The fixed denial text sent by `_check_auth`. -/
def denialText : String := "You are not authorized to use this bot."

/-- `PaperlessBot._is_authorized`: an empty allowed-user set admits
everyone; otherwise membership decides. -/
def is_authorized (allowed : List Nat) (uid : Nat) : Bool :=
  allowed.isEmpty || allowed.contains uid

/-- The entry points wired up in `create_bot`. -/
inductive EntryPoint where
  | start | help | search | recent | inbox | stats
  | document | photo | text | callback
deriving Repr, DecidableEq

/-- The trace prefix of each entry point around its authorization gate,
with `body` the trace of the authorized continuation (which is where every
backend call of the handler lives).  Command, text and attachment handlers
call `_check_auth`, which replies with the denial text and aborts the
handler when the user is not authorized; `handle_callback` first answers
the callback query and then silently returns when the user is not
authorized. -/
def entryTrace (e : EntryPoint) (allowed : List Nat) (uid : Nat)
    (body : List Action) : List Action :=
  match e with
  | .callback =>
    Action.answerCallback :: (if is_authorized allowed uid then body else [])
  | _ =>
    if is_authorized allowed uid then body else [Action.reply denialText]

/-! ## Per-chat pending-upload state and `_process_upload`
(`handlers.py` lines 203-251) -/

/-- Pending-upload record for one chat: document id and selected tag set. -/
structure PendingUpload where
  doc_id : Nat
  selected_tags : Finset Nat
deriving DecidableEq

/-- The per-chat pending-upload store (`self.pending_uploads`). -/
abbrev PendingMap : Type := List (Nat × PendingUpload)

/-- Store update `self.pending_uploads[chat_id] = v`. -/
def setPending (chat : Nat) (v : PendingUpload) (m : PendingMap) : PendingMap :=
  (chat, v) :: m.filter (fun p => p.1 != chat)

/-- Store lookup `self.pending_uploads.get(chat_id)`. -/
def getPending (chat : Nat) (m : PendingMap) : Option PendingUpload :=
  (m.find? (fun p => p.1 == chat)).map (fun p => p.2)

/-- The user-visible outcome `_process_upload` routes a task result to. -/
inductive UploadOutcome where
  | metadataMenu (docId : Nat)
  | duplicateWithId (docId : Nat)
  | duplicateNoId
  | failedNotice (msg : List Char)
  | timeoutNotice
deriving Repr, DecidableEq

/-- The outcome dispatch of `_process_upload` (lines 210-251): the success
continuation fires only when the status is "success" AND the document id is
truthy; a duplicate shows the existing document when its id is truthy; a
failure shows the message (or "Unknown error" when it is falsy); everything
else falls into the trailing timeout branch. -/
def processUploadOutcome (r : TaskResult) : UploadOutcome :=
  if r.status == "success" && natTruthy r.doc_id then
    .metadataMenu (r.doc_id.getD 0)
  else if r.status == "duplicate" then
    if natTruthy r.doc_id then .duplicateWithId (r.doc_id.getD 0) else .duplicateNoId
  else if r.status == "failed" then
    .failedNotice (if (r.message.getD []).isEmpty then "Unknown error".toList else r.message.getD [])
  else
    .timeoutNotice

/-- The pending-upload store after `_process_upload` handles `r` for
`chat`: only the success-with-truthy-id branch creates state
(`self.pending_uploads[chat_id] = ...` on line 212). -/
def processUploadPending (r : TaskResult) (chat : Nat) (m : PendingMap) : PendingMap :=
  if r.status == "success" && natTruthy r.doc_id then
    setPending chat { doc_id := r.doc_id.getD 0, selected_tags := ∅ } m
  else m

/-! ## Tag toggle and confirm (`handlers.py` 539-569, 586-609;
`keyboards.py` 31-69) -/

/-- The checked/unchecked marker `build_tag_selection_keyboard` embeds in a
tag button's callback payload: "x" when the tag id is in the selected set,
"o" otherwise (keyboards.py line 46). -/
def renderMarker (selected : Finset Nat) (tagId : Nat) : String :=
  if tagId ∈ selected then "x" else "o"

/-- The selected-set update of `_handle_tag_toggle` (lines 552-555): the
marker "o" carried by the pressed button adds the tag id, any other marker
discards it. -/
def toggleTag (marker : String) (tagId : Nat) (selected : Finset Nat) : Finset Nat :=
  if marker == "o" then insert tagId selected else selected.erase tagId

/-- Keyboards a confirm handler can attach to its reply. -/
inductive Keyboard where
  | metadataMenu (docId : Nat)
  | tagSelection (docId : Nat)
deriving Repr, DecidableEq

/-- Message kinds `_handle_tag_confirm` can produce. -/
inductive ConfirmMsg where
  | tagsSet (names : List String)
  | noTagsSelected
  | updateFailed
deriving Repr, DecidableEq

/-- `_handle_tag_confirm` (lines 586-609), as the list of backend calls it
issues, the message it edits in, and the keyboard it attaches.  `ok` says
whether the `update_document` call succeeds.  A non-empty selection issues
exactly one `update_document(doc_id, tags=selected)` call; an empty
selection issues none and acknowledges with a distinct message; both paths
re-attach the metadata menu keyboard. -/
def handleTagConfirm (tagsCache : Cache) (selected : Finset Nat) (docId : Nat)
    (ok : Bool) : List (Nat × Finset Nat) × ConfirmMsg × Keyboard :=
  if selected.Nonempty then
    ([(docId, selected)],
     (if ok
      then ConfirmMsg.tagsSet
        ((selected.sort (· ≤ ·)).map (fun tid => cacheGetD tagsCache tid ("#" ++ toString tid)))
      else ConfirmMsg.updateFailed),
     Keyboard.metadataMenu docId)
  else
    ([], ConfirmMsg.noTagsSelected, Keyboard.metadataMenu docId)

/-! ## Download size gate (`handlers.py` lines 664-683) -/

/-- `TELEGRAM_FILE_LIMIT = 50 * 1024 * 1024` (handlers.py line 32). -/
def TELEGRAM_FILE_LIMIT : Nat := 50 * 1024 * 1024

/-- Gateway-facing actions of `_handle_download`. -/
inductive DlAction where
  | sendMessage (text : String)
  | sendDocument (size : Nat) (filename : String)
deriving Repr, DecidableEq

/-- Whether an action ships the file itself through the gateway. -/
def DlAction.sendsFile : DlAction → Bool
  | .sendMessage _ => false
  | .sendDocument _ _ => true

/-- `_handle_download` after a successful `download_document` call (lines
669-680): a byte length above the limit sends a "file too large" text and
returns; otherwise the document is sent. -/
def handleDownloadSend (size : Nat) (filename : String) : List DlAction :=
  if size > TELEGRAM_FILE_LIMIT then
    [DlAction.sendMessage "File too large for Telegram."]
  else
    [DlAction.sendDocument size filename]

/-! ## Concrete instances used by examples and counterexamples -/

/-- The duplicate message quoted by the specification. -/
def exDupMsg : List Char :=
  "Not consuming file.pdf: It is a duplicate of Invoice April (#42).".toList

/-- The two-tag backend response from the specification's inbox examples. -/
def exInboxTags : List RawTag :=
  [{ id := 1, name := "invoice", is_inbox_tag := false },
   { id := 2, name := "Inbox", is_inbox_tag := true }]

/-- A raw document whose correspondent, type and tag ids are all unknown to
the (empty) caches. -/
def exUnknownIdsDoc : RawDocument :=
  { id := 5, title := some "T", correspondent := some 99, document_type := some 7
    tags := [3], created := none, added := none, content := none }

/-- A cache state before a refresh, all three caches holding old data. -/
def exOldState : CacheState :=
  { tags_cache := [(1, "oldTag")]
    correspondents_cache := [(1, "oldCorr")]
    doc_types_cache := [(1, "oldType")]
    inbox_tag_id := none }

/-- The tag data a concrete refresh fetches. -/
def exNewRawTags : List RawTag := [{ id := 1, name := "newTag", is_inbox_tag := false }]

/-- The correspondent data the same refresh fetches. -/
def exNewCorrs : Cache := [(1, "newCorr")]

/-- The document-type data the same refresh fetches. -/
def exNewDts : Cache := [(1, "newType")]

/-- A raw tag with its inbox flag cleared (used to state that a strategy
never consults the flag). -/
def clearFlag (t : RawTag) : RawTag :=
  { t with is_inbox_tag := false }

/-- A raw tag with its name blanked (used to state that a strategy never
consults the name). -/
def blankName (t : RawTag) : RawTag :=
  { t with name := "" }

/-! ## Helper lemmas -/

/-- The duplicate-id extractor returns nothing exactly when the message has
no hash-digit occurrence. -/
theorem extractDuplicateId_eq_none_iff (cs : List Char) :
    extractDuplicateId cs = none ↔ hasHashDigit cs = false := by
  induction cs with
  | nil => simp [extractDuplicateId, hasHashDigit]
  | cons c rest ih =>
    simp only [extractDuplicateId, hasHashDigit]
    by_cases h : (c == '#' && (rest.headD ' ').isDigit) = true
    · rw [if_pos h, h]; simp
    · have hb : (c == '#' && (rest.headD ' ').isDigit) = false := eq_false_of_ne_true h
      rw [if_neg h, hb]; simpa using ih

/-- The polling loop inspects at most as many outcomes as it is given. -/
theorem attemptsUsed_le_length (ps : List PollOutcome) :
    attemptsUsed ps ≤ ps.length := by
  induction ps with
  | nil => simp [attemptsUsed]
  | cons p rest ih =>
    cases h : pollStep p with
    | some r => simp [attemptsUsed, h]
    | none =>
      simp only [attemptsUsed, h, List.length_cons]
      omega

/-- A run in which no attempt observes a terminal result times out. -/
theorem runPolls_eq_timeout_of_all_none (ps : List PollOutcome)
    (h : ∀ p ∈ ps, pollStep p = none) :
    runPolls ps = { status := "timeout", doc_id := none, message := none } := by
  induction ps with
  | nil => rfl
  | cons p rest ih =>
    have hp : pollStep p = none := h p (List.mem_cons_self p rest)
    simp only [runPolls, hp]
    exact ih (fun q hq => h q (List.mem_cons_of_mem p hq))

/-- Finding by a predicate that only reads fields preserved by a rewrite
commutes with mapping that rewrite over the list. -/
theorem find?_map_comm (f : RawTag → RawTag) (p : RawTag → Bool) (l : List RawTag)
    (hf : ∀ t, p (f t) = p t) (hid : ∀ t, (f t).id = t.id) :
    ((l.map f).find? p).map (fun t => t.id) = (l.find? p).map (fun t => t.id) := by
  have hp : p ∘ f = p := funext hf
  rw [List.find?_map, hp, Option.map_map]
  have hg : ((fun t : RawTag => t.id) ∘ f) = fun t : RawTag => t.id := funext hid
  rw [hg]

/-! ## Claim C1 -/

/-- C1 counterexample: on a document whose correspondent id 99 is absent
from the correspondent cache, `_parse_document` resolves the correspondent
to `none`, not to the synthetic label "#99" the claim promises (the "#id"
fallback exists only for tags, as the same document's unknown tag id 3
shows). -/
theorem C1_counterexample :
    (parse_document [] [] [] exUnknownIdsDoc).correspondent = none
    ∧ (parse_document [] [] [] exUnknownIdsDoc).correspondent ≠ some "#99"
    ∧ (parse_document [] [] [] exUnknownIdsDoc).document_type = none
    ∧ (parse_document [] [] [] exUnknownIdsDoc).tags = ["#3"] := by
  refine ⟨rfl, ?_, rfl, rfl⟩
  decide

/-- C1 amended: resolving a raw document never fails on unknown ids; every
tag id absent from the tag cache renders as the fallback label "#id", while
a correspondent or document-type id absent from its cache resolves to no
value (`none`), not to a synthetic label. -/
theorem C1_unknown_id_resolution (tc cc dc : Cache) (d : RawDocument) :
    (∀ tid ∈ d.tags, cacheGet tc tid = none →
        ("#" ++ toString tid) ∈ (parse_document tc cc dc d).tags)
    ∧ (∀ cid, d.correspondent = some cid → cacheGet cc cid = none →
        (parse_document tc cc dc d).correspondent = none)
    ∧ (∀ did, d.document_type = some did → cacheGet dc did = none →
        (parse_document tc cc dc d).document_type = none) := by
  refine ⟨?_, ?_, ?_⟩
  · intro tid hmem hnone
    simp only [parse_document]
    refine List.mem_map.mpr ⟨tid, hmem, ?_⟩
    simp [cacheGetD, hnone]
  · intro cid hc hnone
    simp only [parse_document, hc]
    by_cases h0 : cid = 0
    · simp [natTruthy, h0]
    · simp [natTruthy, h0, hnone]
  · intro did hd hnone
    simp only [parse_document, hd]
    by_cases h0 : did = 0
    · simp [natTruthy, h0]
    · simp [natTruthy, h0, hnone]

/-- C1 witness: the amended theorem applied to the concrete document with
unknown tag id 3, correspondent id 99 and type id 7 against empty caches. -/
theorem C1_unknown_id_resolution_witness :
    ("#3" ∈ (parse_document [] [] [] exUnknownIdsDoc).tags)
    ∧ (parse_document [] [] [] exUnknownIdsDoc).correspondent = none
    ∧ (parse_document [] [] [] exUnknownIdsDoc).document_type = none := by
  refine ⟨?_, ?_, ?_⟩
  · exact (C1_unknown_id_resolution [] [] [] exUnknownIdsDoc).1 3 (by decide) rfl
  · exact (C1_unknown_id_resolution [] [] [] exUnknownIdsDoc).2.1 99 rfl rfl
  · exact (C1_unknown_id_resolution [] [] [] exUnknownIdsDoc).2.2 7 rfl rfl

/-! ## Claim C2 -/

/-- C2: on a terminal-failure poll (status FAILURE or REVOKED), a result
message containing "duplicate" case-insensitively yields a duplicate task
result whose document id is the value extracted from the first hash-digits
occurrence; a message with no hash-digits occurrence extracts no id; a
message not containing "duplicate" yields a failed result carrying the raw
message; and on the specification's concrete message the extracted id
is 42. -/
theorem C2_duplicate_detection (status : String) (msg : List Char) (related : Option Nat)
    (hterm : status = "FAILURE" ∨ status = "REVOKED") :
    (containsSub duplicateMarker (lowerChars msg) = true →
      pollStep (PollOutcome.task status (some msg) related) =
        some { status := "duplicate", doc_id := extractDuplicateId msg, message := some msg })
    ∧ (containsSub duplicateMarker (lowerChars msg) = false →
      pollStep (PollOutcome.task status (some msg) related) =
        some { status := "failed", doc_id := none, message := some msg })
    ∧ (hasHashDigit msg = false → extractDuplicateId msg = none)
    ∧ extractDuplicateId exDupMsg = some 42 := by
  have hs : (status == "SUCCESS") = false := by
    rcases hterm with h | h <;> simp [h]
  have hb : (status == "FAILURE" || status == "REVOKED") = true := by
    rcases hterm with h | h <;> simp [h]
  refine ⟨?_, ?_, ?_, ?_⟩
  · intro hdup
    simp [pollStep, hs, hb, handleTerminalFailure, hdup]
  · intro hnodup
    simp [pollStep, hs, hb, handleTerminalFailure, hnodup]
  · intro hno
    exact (extractDuplicateId_eq_none_iff msg).mpr hno
  · decide

/-- C2 witness: the theorem applied at status FAILURE with the
specification's duplicate message, so the poll returns a duplicate result
with document id 42. -/
theorem C2_duplicate_detection_witness :
    pollStep (PollOutcome.task "FAILURE" (some exDupMsg) none) =
      some { status := "duplicate", doc_id := extractDuplicateId exDupMsg,
             message := some exDupMsg }
    ∧ extractDuplicateId exDupMsg = some 42 :=
  ⟨(C2_duplicate_detection "FAILURE" exDupMsg none (Or.inl rfl)).1 (by decide),
   (C2_duplicate_detection "FAILURE" exDupMsg none (Or.inl rfl)).2.2.2⟩

/-! ## Claim C3 -/

/-- C3 counterexample: during a concrete refresh, the state observable at
the first suspension point (while `get_correspondents()` is awaited) holds
the newly installed tag cache next to the still-old correspondent and
document-type caches, so a reader can see a partially updated cache set —
the refresh is not atomic. -/
theorem C3_counterexample :
    (refreshObservableStates exOldState exNewRawTags exNewCorrs exNewDts none).head? =
      some { tags_cache := [(1, "newTag")]
             correspondents_cache := [(1, "oldCorr")]
             doc_types_cache := [(1, "oldType")]
             inbox_tag_id := none }
    ∧ ([(1, "oldCorr")] : Cache) ≠ exNewCorrs
    ∧ ((1, "newTag") : Nat × String) ≠ (1, "oldTag") :=
  ⟨rfl, by decide, by decide⟩

/-- C3 amended: each individual cache is replaced by one wholesale
assignment and the final state of a refresh holds all three new caches and
the re-resolved inbox id, but the three installs are separated by
suspension points: the first observable intermediate state already holds
the new tag cache while the correspondent and document-type caches (and the
inbox id) still hold their previous values, and the second observable state
additionally holds the new correspondent cache while the document-type
cache is still old. -/
theorem C3_sequential_refresh (s0 : CacheState) (rawTags : List RawTag)
    (corrs dts : Cache) (override : Option String) :
    refresh_cache s0 rawTags corrs dts override =
      { tags_cache := buildTagCache rawTags
        correspondents_cache := corrs
        doc_types_cache := dts
        inbox_tag_id := resolveInboxTag override rawTags }
    ∧ (refreshObservableStates s0 rawTags corrs dts override).head? =
      some { tags_cache := buildTagCache rawTags
             correspondents_cache := s0.correspondents_cache
             doc_types_cache := s0.doc_types_cache
             inbox_tag_id := s0.inbox_tag_id }
    ∧ (refreshObservableStates s0 rawTags corrs dts override).get? 1 =
      some { tags_cache := buildTagCache rawTags
             correspondents_cache := corrs
             doc_types_cache := s0.doc_types_cache
             inbox_tag_id := s0.inbox_tag_id } :=
  ⟨rfl, rfl, rfl⟩

/-! ## Claim C4 -/

/-- C4 counterexample: an unauthorized callback-button press (allowed set
contains only user 1, the press comes from user 2) produces a trace that
answers the callback and performs no backend call, but it does NOT contain
the fixed denial message the claim promises for every entry point. -/
theorem C4_counterexample :
    entryTrace EntryPoint.callback [1] 2 [Action.backend "search_documents"] =
      [Action.answerCallback]
    ∧ Action.reply denialText ∉
      entryTrace EntryPoint.callback [1] 2 [Action.backend "search_documents"] := by
  refine ⟨rfl, ?_⟩
  decide

/-- C4 amended: with a non-empty allowed-user set, a request from a user
outside that set never reaches a backend-client call on any entry point;
command, text and attachment entry points reply with exactly the fixed
denial message, while the callback entry point merely answers the callback
and sends no denial message. -/
theorem C4_auth_gate (e : EntryPoint) (allowed : List Nat) (uid : Nat)
    (body : List Action) (hne : allowed ≠ []) (hmem : uid ∉ allowed) :
    (∀ a ∈ entryTrace e allowed uid body, ∀ c, a ≠ Action.backend c)
    ∧ (e ≠ EntryPoint.callback →
        entryTrace e allowed uid body = [Action.reply denialText])
    ∧ (e = EntryPoint.callback →
        entryTrace e allowed uid body = [Action.answerCallback]) := by
  have hauth : is_authorized allowed uid = false := by
    simp [is_authorized, hne, hmem]
  refine ⟨?_, ?_, ?_⟩
  · intro a ha c
    cases e <;> simp [entryTrace, hauth] at ha <;> simp [ha]
  · intro hne2
    cases e
    case callback => exact absurd rfl hne2
    all_goals simp [entryTrace, hauth]
  · intro he
    subst he
    simp [entryTrace, hauth]

/-- C4 witness: the amended theorem applied to the /start entry point for
user 2 against the allowed set containing only user 1, with a body that
would call the backend. -/
theorem C4_auth_gate_witness :
    entryTrace EntryPoint.start [1] 2 [Action.backend "get_statistics"] =
      [Action.reply denialText] :=
  (C4_auth_gate EntryPoint.start [1] 2 [Action.backend "get_statistics"]
    (by decide) (by decide)).2.1 (by decide)

/-! ## Claim C5 -/

/-- C5: the polling loop of `wait_for_task` works through a fixed budget of
`timeout / 2` attempts: it inspects at most that many outcomes; a transport
error consumes exactly one attempt and the loop continues over the same
remaining attempts; and if no attempt within the budget observes a terminal
result the call returns the timeout result. -/
theorem C5_polling_budget (polls : Nat → PollOutcome) (timeout : Nat) :
    attemptsUsed ((List.range (timeout / 2)).map polls) ≤ timeout / 2
    ∧ (∀ ps : List PollOutcome,
        runPolls (PollOutcome.transportError :: ps) = runPolls ps
        ∧ attemptsUsed (PollOutcome.transportError :: ps) = 1 + attemptsUsed ps)
    ∧ ((∀ i < timeout / 2, pollStep (polls i) = none) →
        wait_for_task polls timeout =
          { status := "timeout", doc_id := none, message := none }) := by
  refine ⟨?_, ?_, ?_⟩
  · calc attemptsUsed ((List.range (timeout / 2)).map polls)
        ≤ ((List.range (timeout / 2)).map polls).length :=
          attemptsUsed_le_length _
      _ = timeout / 2 := by simp
  · intro ps
    exact ⟨rfl, rfl⟩
  · intro hall
    apply runPolls_eq_timeout_of_all_none
    intro p hp
    rcases List.mem_map.mp hp with ⟨i, hi, rfl⟩
    exact hall i (List.mem_range.mp hi)

/-- C5 witness: the theorem applied to an oracle that always raises a
transport error with a 60-second timeout: 30 attempts at most, and the call
returns the timeout result. -/
theorem C5_polling_budget_witness :
    wait_for_task (fun _ => PollOutcome.transportError) 60 =
      { status := "timeout", doc_id := none, message := none } :=
  (C5_polling_budget (fun _ => PollOutcome.transportError) 60).2.2
    (fun _ _ => rfl)

/-! ## Claim C6 -/

/-- C6: inbox-tag resolution runs exactly one of two strategies.  On the
specification's two-tag data, the override "invoice" resolves to id 1 (the
name match beats the flagged tag), no override resolves to id 2 (the
flagged tag), and a non-matching override leaves the inbox unresolved.  In
general a truthy override makes the result independent of the inbox flags
(the flag strategy never runs), and without a truthy override the result is
the first flagged tag and is independent of the tag names (the name
strategy never runs). -/
theorem C6_inbox_strategy (ov : Option String) (tags : List RawTag) :
    resolveInboxTag (some "invoice") exInboxTags = some 1
    ∧ resolveInboxTag none exInboxTags = some 2
    ∧ resolveInboxTag (some "nomatch") exInboxTags = none
    ∧ (strTruthy ov = true →
        resolveInboxTag ov tags = resolveInboxTag ov (tags.map clearFlag))
    ∧ (strTruthy ov = false →
        resolveInboxTag ov tags =
          (tags.find? (fun t => t.is_inbox_tag)).map (fun t => t.id)
        ∧ resolveInboxTag ov tags = resolveInboxTag none (tags.map blankName)) := by
  refine ⟨by decide, by decide, by decide, ?_, ?_⟩
  · intro h
    simp only [resolveInboxTag, h, if_true]
    exact (find?_map_comm clearFlag
      (fun t => strLower t.name == strLower (ov.getD "")) tags
      (fun t => rfl) (fun t => rfl)).symm
  · intro h
    have h2 : strTruthy (none : Option String) = false := rfl
    constructor
    · simp only [resolveInboxTag, h]
      rfl
    · simp only [resolveInboxTag, h, h2]
      simp only [Bool.false_eq_true, if_false]
      exact (find?_map_comm blankName
        (fun t => t.is_inbox_tag) tags (fun t => rfl) (fun t => rfl)).symm

/-- C6 witness: the theorem applied at the override "invoice" (flags
irrelevant) and at no override (resolution picks the flagged tag id 2) on
the specification's concrete tag data. -/
theorem C6_inbox_strategy_witness :
    resolveInboxTag (some "invoice") exInboxTags =
      resolveInboxTag (some "invoice") (exInboxTags.map clearFlag)
    ∧ resolveInboxTag none exInboxTags =
      (exInboxTags.find? (fun t => t.is_inbox_tag)).map (fun t => t.id) :=
  ⟨(C6_inbox_strategy (some "invoice") exInboxTags).2.2.2.1 (by decide),
   ((C6_inbox_strategy none exInboxTags).2.2.2.2 rfl).1⟩

/-! ## Claim C7 -/

/-- C7: tag toggling is self-inverse.  Toggling with marker "o" inserts the
tag id and any other marker erases it; pressing the toggle for a tag and
pressing it again with the marker produced by re-rendering the keyboard
after the first press returns the selected set to its original value. -/
theorem C7_toggle_self_inverse (S : Finset Nat) (t : Nat) :
    toggleTag (renderMarker (toggleTag (renderMarker S t) t S) t) t
        (toggleTag (renderMarker S t) t S) = S
    ∧ toggleTag "o" t S = insert t S
    ∧ toggleTag "x" t S = S.erase t := by
  refine ⟨?_, rfl, rfl⟩
  by_cases h : t ∈ S
  · have h1 : renderMarker S t = "x" := by simp [renderMarker, h]
    rw [h1]
    have h3 : renderMarker (S.erase t) t = "o" := by simp [renderMarker]
    show toggleTag (renderMarker (S.erase t) t) t (S.erase t) = S
    rw [h3]
    show insert t (S.erase t) = S
    exact Finset.insert_erase h
  · have h1 : renderMarker S t = "o" := by simp [renderMarker, h]
    rw [h1]
    have h3 : renderMarker (insert t S) t = "x" := by simp [renderMarker]
    show toggleTag (renderMarker (insert t S) t) t (insert t S) = S
    rw [h3]
    show (insert t S).erase t = S
    exact Finset.erase_insert h

/-! ## Claim C8 -/

/-- C8: confirming a non-empty tag selection issues exactly one
`update_document` call carrying the document id and the full selected set,
and re-attaches the metadata menu; confirming an empty selection issues no
backend call, acknowledges with the distinct no-tags message, and still
re-attaches the metadata menu. -/
theorem C8_tag_confirm (tc : Cache) (S : Finset Nat) (doc : Nat) (ok : Bool) :
    (S.Nonempty →
      (handleTagConfirm tc S doc ok).1 = [(doc, S)]
      ∧ (handleTagConfirm tc S doc ok).2.2 = Keyboard.metadataMenu doc)
    ∧ (S = ∅ →
      (handleTagConfirm tc S doc ok).1 = []
      ∧ (handleTagConfirm tc S doc ok).2.1 = ConfirmMsg.noTagsSelected
      ∧ (handleTagConfirm tc S doc ok).2.2 = Keyboard.metadataMenu doc) := by
  constructor
  · intro h
    simp [handleTagConfirm, h]
  · intro h
    subst h
    simp [handleTagConfirm]

/-- C8 witness: confirming the selection containing tags 1 and 3 on
document 42 issues the single call carrying that set, and confirming the
empty selection issues none. -/
theorem C8_tag_confirm_witness :
    (handleTagConfirm [] ({1, 3} : Finset Nat) 42 true).1 = [(42, ({1, 3} : Finset Nat))]
    ∧ (handleTagConfirm [] (∅ : Finset Nat) 42 true).1 = []
    ∧ (handleTagConfirm [] (∅ : Finset Nat) 42 true).2.1 = ConfirmMsg.noTagsSelected :=
  ⟨((C8_tag_confirm [] {1, 3} 42 true).1 (by decide)).1,
   ((C8_tag_confirm [] ∅ 42 true).2 rfl).1,
   ((C8_tag_confirm [] ∅ 42 true).2 rfl).2.1⟩

/-! ## Claim C9 -/

/-- C9: a downloaded byte length above the 50 MB limit makes the download
handler send only the too-large text message (no action that ships the
file), and any action that ships the file can occur only when the byte
length is at most the limit. -/
theorem C9_download_size_gate (n : Nat) (f : String) :
    (n > TELEGRAM_FILE_LIMIT →
      handleDownloadSend n f = [DlAction.sendMessage "File too large for Telegram."]
      ∧ ∀ a ∈ handleDownloadSend n f, a.sendsFile = false)
    ∧ (∀ a ∈ handleDownloadSend n f, a.sendsFile = true → n ≤ TELEGRAM_FILE_LIMIT) := by
  constructor
  · intro h
    constructor
    · simp [handleDownloadSend, h]
    · intro a ha
      simp [handleDownloadSend, h] at ha
      simp [ha, DlAction.sendsFile]
  · intro a ha hs
    by_cases h : n > TELEGRAM_FILE_LIMIT
    · simp [handleDownloadSend, h] at ha
      rw [ha] at hs
      simp [DlAction.sendsFile] at hs
    · omega

/-- C9 witness: one byte over the 50 MB limit (52428801 bytes) produces
only the too-large message. -/
theorem C9_download_size_gate_witness :
    handleDownloadSend 52428801 "doc.pdf" =
      [DlAction.sendMessage "File too large for Telegram."] :=
  ((C9_download_size_gate 52428801 "doc.pdf").1 (by decide)).1

/-! ## Claim C10 -/

/-- C10: a task result with status "success" but no related document id
makes `_process_upload` fall through to the trailing timeout branch (the
timed-out notice) and leaves the pending-upload store untouched — the
success continuation requires both the success status and a present
document id. -/
theorem C10_success_requires_doc_id (r : TaskResult) (chat : Nat) (m : PendingMap)
    (hs : r.status = "success") (hd : r.doc_id = none) :
    processUploadOutcome r = UploadOutcome.timeoutNotice
    ∧ processUploadPending r chat m = m := by
  constructor
  · simp [processUploadOutcome, hs, hd, natTruthy]
  · simp [processUploadPending, hs, hd, natTruthy]

/-- C10 witness: the theorem applied to the concrete success-without-id
result for chat 7 and an empty pending store. -/
theorem C10_success_requires_doc_id_witness :
    processUploadOutcome { status := "success", doc_id := none, message := none } =
      UploadOutcome.timeoutNotice
    ∧ processUploadPending { status := "success", doc_id := none, message := none } 7 [] = [] :=
  C10_success_requires_doc_id
    { status := "success", doc_id := none, message := none } 7 [] rfl rfl

end PaperlessBot
